import Mathlib

/-!
Shallow embedding of the telegram-digest-agent core: the entity classifier
(chat-utils.js), the filter policy engine (message-filter.js and bot.js),
the ingestion event handler registered in bot.js startLogging, and the
digest window collector (bot.js collectWeeklyLogs).

Modelling conventions:
- JavaScript strings are embedded as lists of Unicode scalar values
  (`Str := List Char`); `toUpperCase`/`toLowerCase` are modelled on the
  ASCII range (every keyword the code compares is ASCII, emoji or matched
  verbatim), `String.prototype.length` (UTF-16 code units) is modelled
  exactly by counting astral scalars twice, and
  `String.prototype.includes` is the substring test `jsIncludes`.
- The floating-point comparison `capsCount / text.length > 0.5` is
  modelled by the exact rational comparison `2 * capsCount > length`,
  which also agrees with the JS semantics at `length = 0`
  (`NaN > 0.5` is false).
- JavaScript truthiness on optional numbers and strings is modelled
  explicitly (`0`, `''`, `undefined` are falsy).
- Wall-clock calendar dates are embedded as integers, one per day; the
  log directory is a total function from date to the parsed JSON array
  of that date's file.
- External lookups (message.getChat(), message.getSender(),
  client.getMe()) are modelled by `Option`-valued fields on the event:
  `none` is a lookup whose retries were exhausted.  Real-time fields of
  the handler (rate-limit timestamps, hourly console summaries) touch no
  modelled state and are omitted.
-/

/-- A JavaScript string, as its list of Unicode scalar values. -/
abbrev Str := List Char

/-- Literal helper: a Lean string literal viewed as a `Str`. -/
def str (s : String) : Str := s.data

/-- Boolean prefix test used to implement `jsIncludes`. -/
def isPrefixB : Str → Str → Bool
  | [], _ => true
  | _ :: _, [] => false
  | p :: ps, h :: hs => p == h && isPrefixB ps hs

/-- JavaScript `hay.includes(pat)`: `pat` occurs contiguously in `hay`. -/
def jsIncludes : Str → Str → Bool
  | [], pat => isPrefixB pat []
  | h :: t, pat => isPrefixB pat (h :: t) || jsIncludes t pat

/-- JavaScript `String.prototype.toUpperCase`, on the ASCII range. -/
def jsToUpperChar (c : Char) : Char :=
  if 97 ≤ c.toNat ∧ c.toNat ≤ 122 then Char.ofNat (c.toNat - 32) else c

def jsToUpper (s : Str) : Str := s.map jsToUpperChar

/-- JavaScript `String.prototype.toLowerCase`, on the ASCII range. -/
def jsToLowerChar (c : Char) : Char :=
  if 65 ≤ c.toNat ∧ c.toNat ≤ 90 then Char.ofNat (c.toNat + 32) else c

def jsToLower (s : Str) : Str := s.map jsToLowerChar

def isJsSpace (c : Char) : Bool :=
  c == ' ' || c == '\t' || c == '\n' || c == '\r'

/-- JavaScript `String.prototype.trim` (ASCII whitespace). -/
def jsTrim (s : Str) : Str :=
  ((s.dropWhile isJsSpace).reverse.dropWhile isJsSpace).reverse

/-- JavaScript `a || b` on an optional string: `undefined` and `''` are
falsy and select the default. -/
def jsOrStr (a : Option Str) (b : Str) : Str :=
  match a with
  | some s => if s = [] then b else s
  | none => b

/-- A raw Telegram entity (chat or user) as the source inspects it:
optional duck-typed fields, absent fields embedded as `none`/`false`. -/
structure Entity where
  id : Str := []
  className : Option String := none
  title : Option Str := none
  username : Option Str := none
  broadcast : Bool := false
  megagroup : Bool := false
  gigagroup : Bool := false
  bot : Bool := false
  participantsCount : Option Nat := none
  deriving DecidableEq

/-- Result record of ChatUtils.getChatType (chat-utils.js 12-43). -/
structure ChatTypeInfo where
  type : String
  isChannel : Bool
  isGroup : Bool
  isBot : Bool
  isDM : Bool
  deriving DecidableEq

namespace ChatUtils

/-- chat-utils.js `ChatUtils.getChatType` (lines 12-43), field by field. -/
def getChatType (entity : Entity) : ChatTypeInfo :=
  let isUser := decide (entity.className = some "User")
  let isBot := entity.bot
  let isChannel := entity.broadcast ||
    (decide (entity.className = some "Channel") && !entity.megagroup && !entity.gigagroup)
  let isGroup := entity.megagroup || entity.gigagroup ||
    (decide (entity.className = some "Channel") && (entity.megagroup || entity.gigagroup)) ||
    (entity.participantsCount.isSome && !isChannel && !isUser)
  let isDM := (isUser && !isBot) || (!isChannel && !isGroup && !isBot && !isUser)
  let typeString :=
    if isChannel then "channel"
    else if isGroup then "group"
    else if isBot then "bot"
    else "dm"
  { type := typeString, isChannel := isChannel, isGroup := isGroup,
    isBot := isBot, isDM := isDM }

end ChatUtils

/-- An entity carrying both the broadcast-channel flag and the megagroup
flag, the shape claim C2 reasons about. -/
def brMegaEntity : Entity := { broadcast := true, megagroup := true }

/-- C2 counterexample: the classifier maps an entity flagged as a
broadcast channel AND as a megagroup to `channel`, not `group` — the
`broadcast === true` disjunct alone makes `isChannel` true and `channel`
wins the tag cascade, so the claimed precedence (rule 1 requiring
not-megagroup, rule 2 giving `group`) does not hold in the code. -/
theorem C2_counterexample :
    brMegaEntity.broadcast = true ∧ brMegaEntity.megagroup = true ∧
    (ChatUtils.getChatType brMegaEntity).type = "channel" ∧
    (ChatUtils.getChatType brMegaEntity).type ≠ "group" := by
  decide

/-- C2 (amended): for every entity the classifier returns exactly one of
the four tags {dm, group, channel, bot} and is deterministic; an entity
flagged as a broadcast channel is classified `channel` even when it is
also flagged megagroup/gigagroup (the broadcast flag alone suffices). -/
theorem C2_classifier_total_deterministic :
    ∀ e : Entity,
      ((ChatUtils.getChatType e).type = "dm" ∨
       (ChatUtils.getChatType e).type = "group" ∨
       (ChatUtils.getChatType e).type = "channel" ∨
       (ChatUtils.getChatType e).type = "bot") ∧
      (∀ e' : Entity, e = e' → ChatUtils.getChatType e = ChatUtils.getChatType e') ∧
      (e.broadcast = true → (ChatUtils.getChatType e).type = "channel") := by
  intro e
  refine ⟨?_, ?_, ?_⟩
  · simp only [ChatUtils.getChatType]
    split
    · exact Or.inr (Or.inr (Or.inl rfl))
    · split
      · exact Or.inr (Or.inl rfl)
      · split
        · exact Or.inr (Or.inr (Or.inr rfl))
        · exact Or.inl rfl
  · intro e' h; rw [h]
  · intro hb
    simp only [ChatUtils.getChatType, hb]
    rfl

/-- C2 witness: the amended theorem applied at a concrete broadcast
channel entity. -/
theorem C2_witness :
    ({ broadcast := true : Entity }).broadcast = true ∧
    (ChatUtils.getChatType { broadcast := true : Entity }).type = "channel" :=
  ⟨rfl, (C2_classifier_total_deterministic { broadcast := true }).2.2 rfl⟩

/-- One scalar of the emoji ranges matched by the spam regex in both
bot.js isSpamMessage and message-filter.js isSpamMessage. -/
def isEmojiChar (c : Char) : Bool :=
  (0x1F600 ≤ c.toNat && c.toNat ≤ 0x1F64F) ||
  (0x1F300 ≤ c.toNat && c.toNat ≤ 0x1F5FF) ||
  (0x1F680 ≤ c.toNat && c.toNat ≤ 0x1F6FF) ||
  (0x1F1E0 ≤ c.toNat && c.toNat ≤ 0x1F1FF) ||
  (0x2600 ≤ c.toNat && c.toNat ≤ 0x26FF) ||
  (0x2700 ≤ c.toNat && c.toNat ≤ 0x27BF)

/-- Number of emoji-range scalars in the text (the `match` count). -/
def emojiCount (s : Str) : Nat := (s.filter isEmojiChar).length

/-- Number of `[A-Z]` characters in the text. -/
def capsCount (s : Str) : Nat :=
  (s.filter (fun c => 65 ≤ c.toNat && c.toNat ≤ 90)).length

/-- JavaScript `String.prototype.length`: UTF-16 code units. -/
def utf16Len (s : Str) : Nat :=
  (s.map (fun c => if 0x10000 ≤ c.toNat then 2 else 1)).sum

/-- The third disjunct of bot.js isSpamMessage,
`capsRatio > 0.5 && text.length > 20`, with the ratio comparison taken
exactly (`2 * capsCount > length`; at length 0 the JS `NaN > 0.5` is
false, as is `0 > 0`). -/
def capsClause (s : Str) : Bool :=
  decide (2 * capsCount s > utf16Len s) && decide (utf16Len s > 20)

/-- The logged-in account as checkMention inspects it. -/
structure Me where
  id : Str := []
  username : Option Str := none
  firstName : Str := []
  lastName : Option Str := none
  deriving DecidableEq

/-- The display name built by checkMention:
`` `${me.firstName} ${me.lastName || ''}`.trim() ``. -/
def fullName (me : Me) : Str :=
  jsTrim (me.firstName ++ str " " ++ jsOrStr me.lastName [])

/-- bot.js checkMention (680-687) and the identical
message-filter.js MessageFilter.checkMention (177-183): an empty text is
falsy and never mentions; otherwise the text must contain `@username`
verbatim (when the username is set and non-empty), or the lowercased
text must contain the lowercased full name. -/
def checkMention (text : Str) (me : Me) : Bool :=
  if text = [] then false
  else
    (match me.username with
     | some u => !decide (u = []) && jsIncludes text (str "@" ++ u)
     | none => false) ||
    jsIncludes (jsToLower text) (jsToLower (fullName me))

/-- A sender entity as bot.js getSenderInfo produces it (possibly the
synthetic channel sender). -/
structure Sender where
  id : Str := []
  firstName : Str := []
  lastName : Option Str := none
  username : Option Str := none
  bot : Bool := false
  isChannel : Bool := false
  deriving DecidableEq

/-- The run configuration, fixed at startup from the environment
(FILTER_MODE, ALLOWED_CHAT_IDS, EXCLUDED_KEYWORDS, EXCLUDED_FOLDERS,
BLOCK_ALL_CHANNELS) together with the folder cache built once per run. -/
structure Config where
  filterMode : String := "smart"
  allowedChatIds : List Str := []
  excludedKeywords : List Str := []
  excludedFolders : List String := []
  blockAllChannels : Bool := false
  folderCache : List (Str × String) := []
  deriving DecidableEq

/-- JavaScript truthiness of `entity.participantsCount`
(`undefined` and `0` are falsy). -/
def pcTruthy (e : Entity) : Bool :=
  match e.participantsCount with
  | some n => decide (0 < n)
  | none => false

/-- The numeric value of `entity.participantsCount` where compared
(comparisons with `undefined` are false and are guarded by `pcTruthy`
or handled explicitly at each use site). -/
def pcVal (e : Entity) : Nat := e.participantsCount.getD 0

namespace MessageFilter

/-- message-filter.js isSpamChat keyword list (lines 107-122). -/
def chatSpamKeywords : List Str :=
  [str "trading", str "crypto", str "bitcoin", str "btc", str "eth", str "pump",
   str "signal", str "trend", str "coin", str "binance", str "solana",
   str "ethereum", str "token", str "defi", str "nft", str "doge", str "shib",
   str "altcoin", str "protocol", str "dao", str "web3", str "blockchain",
   str "airdrop", str "presale", str "launch", str "listing", str "dex",
   str "swap", str "xrp", str "ripple", str "cardano", str "ada", str "matic",
   str "polygon", str "bnb", str "usdt", str "usdc", str "stablecoin",
   str "luna", str "avax", str "dot", str "link", str "uni", str "sushi",
   str "cake", str "farm", str "yield", str "stake", str "mining", str "hodl",
   str "fomo", str "ath", str "desci", str "seedify", str "ido", str "ico",
   str "pink", str "karma", str "cult", str "nerd", str "labs", str "origo",
   str "casino", str "betting", str "win", str "lottery", str "prize",
   str "jackpot", str "meme", str "trending", str "moonshot", str "gem"]

/-- message-filter.js MessageFilter.isSpamChat (105-124). -/
def isSpamChat (entity : Entity) : Bool :=
  let title := jsToLower (jsOrStr entity.title [])
  chatSpamKeywords.any (fun k => jsIncludes title k)

/-- message-filter.js MessageFilter.smartFilter (126-151). -/
def smartFilter (cfg : Config) (entity : Entity)
    (isChannel isGroup isBot isDM : Bool) : Bool :=
  if isDM && !isBot then true
  else if cfg.blockAllChannels && isChannel then false
  else if isChannel && pcTruthy entity && decide (pcVal entity > 1000) then false
  else if (isChannel || isGroup) && isSpamChat entity then false
  else if isGroup && pcTruthy entity && decide (pcVal entity ≤ 500) then true
  else if isChannel && (!pcTruthy entity || decide (pcVal entity ≤ 1000)) then true
  else if isGroup && pcTruthy entity && decide (pcVal entity > 500) then false
  else false

/-- message-filter.js MessageFilter.shouldIncludeDialog (53-103).
First component: the inclusion decision; second component: whether the
empty-allowlist misconfiguration warning was emitted. -/
def shouldIncludeDialog (cfg : Config) (entity : Entity) : Bool × Bool :=
  let info := ChatUtils.getChatType entity
  if cfg.filterMode = "allowlist" then
    if cfg.allowedChatIds = [] then (true, true)
    else (decide (entity.id ∈ cfg.allowedChatIds), false)
  else if cfg.filterMode = "dm_only" then (info.isDM && !info.isBot, false)
  else if cfg.filterMode = "no_channels" then
    if info.isChannel then (false, false)
    else if info.isGroup && isSpamChat entity then (false, false)
    else (true, false)
  else if cfg.filterMode = "super_strict" then
    (info.isDM || (info.isGroup && pcTruthy entity && decide (pcVal entity ≤ 50)), false)
  else if cfg.filterMode = "exclude_keywords" then
    if cfg.excludedKeywords = [] then (true, false)
    else
      let title := jsToLower (jsOrStr entity.title [])
      (!(cfg.excludedKeywords.any (fun k => jsIncludes title k)), false)
  else if cfg.filterMode = "exclude_folders" then
    if cfg.excludedFolders = [] then (true, false)
    else
      match cfg.folderCache.lookup entity.id with
      | some f => if f ≠ "" ∧ f ∈ cfg.excludedFolders then (false, false) else (true, false)
      | none => (true, false)
  else (smartFilter cfg entity info.isChannel info.isGroup info.isBot info.isDM, false)

/-- message-filter.js MessageFilter.isSpamMessage keyword list (186-189). -/
def spamKeywords : List Str :=
  [str "🚀", str "💎", str "TO THE MOON", str "HODL", str "BUY NOW",
   str "PUMP", str "LAMBO", str "SIGNAL", str "ENTRY", str "TARGET",
   str "STOP LOSS", str "🎰", str "💰", str "🤑"]

/-- message-filter.js MessageFilter.isSpamMessage (185-194): marker match
on the uppercased text, or more than five emoji-range characters.  This
variant has no capital-letter-ratio clause. -/
def isSpamMessage (text : Str) : Bool :=
  let upperText := jsToUpper text
  let hasSpam := spamKeywords.any (fun k => jsIncludes upperText k)
  hasSpam || decide (emojiCount text > 5)

end MessageFilter

namespace Bot

/-- bot.js isSpamMessage keyword list (665-669). -/
def spamKeywords : List Str :=
  [str "🚀", str "💎", str "TO THE MOON", str "HODL", str "BUY NOW",
   str "PUMP", str "LAMBO", str "SIGNAL", str "ENTRY", str "TARGET",
   str "STOP LOSS", str "TP:", str "SL:", str "CLICK HERE",
   str "FREE MONEY", str "GUARANTEED", str "100X", str "PROFIT"]

/-- bot.js TelegramLoggerSystem.isSpamMessage (664-678): marker match on
the uppercased text, or more than five emoji-range characters, or a
capital-letter ratio above one half on a text longer than 20 UTF-16
units. -/
def isSpamMessage (text : Str) : Bool :=
  let upperText := jsToUpper text
  let hasSpamKeywords := spamKeywords.any (fun k => jsIncludes upperText k)
  hasSpamKeywords || decide (emojiCount text > 5) || capsClause text

/-- bot.js spam channel title keyword list in shouldFilterChatSmart
(412-416). -/
def spamChannelKeywords : List Str :=
  [str "trading", str "crypto", str "bitcoin", str "pump", str "signal",
   str "trend", str "coin", str "binance", str "solana", str "ethereum",
   str "token", str "defi", str "nft", str "meme", str "новости",
   str "news", str "канал", str "channel"]

/-- bot.js TelegramLoggerSystem.shouldFilterChatSmart (406-429); `true`
means the chat is filtered out. -/
def shouldFilterChatSmart (chat : Entity) (sender : Sender) : Bool :=
  if chat.broadcast && pcTruthy chat && decide (pcVal chat > 1000) then true
  else if chat.broadcast &&
      spamChannelKeywords.any
        (fun k => jsIncludes (jsToLower (jsOrStr chat.title [])) k) then true
  else if sender.bot &&
      (chat.megagroup || chat.gigagroup || chat.participantsCount.isSome) then true
  else false

/-- bot.js TelegramLoggerSystem.shouldFilterChat (344-404); `true` on
the first component means the chat is filtered out, the second component
records the empty-allowlist misconfiguration warning. -/
def shouldFilterChat (cfg : Config) (chatId : Str) (chat : Entity)
    (sender : Sender) : Bool × Bool :=
  if cfg.filterMode = "allowlist" then
    if cfg.allowedChatIds = [] then (false, true)
    else (!decide (chatId ∈ cfg.allowedChatIds), false)
  else if cfg.filterMode = "exclude_folders" then
    if cfg.excludedFolders = [] then (false, false)
    else
      match cfg.folderCache.lookup chatId with
      | some f => if f ≠ "" ∧ f ∈ cfg.excludedFolders then (true, false) else (false, false)
      | none => (false, false)
  else if cfg.filterMode = "exclude_keywords" then
    if cfg.excludedKeywords = [] ∧ ¬cfg.blockAllChannels then (false, false)
    else if cfg.blockAllChannels && chat.broadcast then (true, false)
    else if ¬(cfg.excludedKeywords = []) ∧
        cfg.excludedKeywords.any
          (fun k => jsIncludes (jsToLower (jsOrStr chat.title [])) k) then (true, false)
    else (false, false)
  else if cfg.filterMode = "super_strict" then (chat.broadcast, false)
  else if cfg.filterMode = "no_channels" then (chat.broadcast, false)
  else (shouldFilterChatSmart chat sender, false)

end Bot

/-- An empty search string is found in every string
(`hay.includes('')` is true). -/
theorem jsIncludes_empty (hay : Str) : jsIncludes hay [] = true := by
  induction hay with
  | nil => rfl
  | cons h t ih => simp [jsIncludes, isPrefixB, ih]

/-- Thirty capital letters: capital ratio 1 on length 30. -/
def capsOnlyText : Str := List.replicate 30 'A'

/-- Exactly five emoji-range characters, no marker, no capitals. -/
def fiveEmojiText : Str := List.replicate 5 '☀'

/-- Exactly six emoji-range characters, no marker, no capitals. -/
def sixEmojiText : Str := List.replicate 6 '☀'

/-- Eleven capitals then eleven lowercase: ratio exactly 0.5 on
length 22 > 20, no marker, no emoji. -/
def halfCapsText : Str := List.replicate 11 'A' ++ List.replicate 11 'a'

/-- C4 counterexample: the claim's if-and-only-if fails for the cited
MessageFilter.isSpamMessage — a 30-character all-capital text has
capital-letter ratio 1 > 0.5 and length 30 > 20 (so the claimed formula
says spam) yet MessageFilter.isSpamMessage returns false, because that
variant has no capital-letter clause (and no marker or emoji fires). -/
theorem C4_counterexample :
    MessageFilter.isSpamMessage capsOnlyText = false ∧
    capsClause capsOnlyText = true ∧
    MessageFilter.spamKeywords.any (fun k => jsIncludes (jsToUpper capsOnlyText) k) = false ∧
    emojiCount capsOnlyText = 0 := by
  decide

/-- C4 (amended): for bot.js isSpamMessage the stated if-and-only-if
holds — marker match, or more than five emoji characters, or capital
ratio above one half with length above 20 — with the stated boundary
behaviour: with no marker and the capital clause off, spam is exactly
`emojiCount > 5`; a ratio of exactly one half never fires the capital
clause; five plain emoji are not spam and six are.  The cited
MessageFilter.isSpamMessage variant omits the capital-letter clause
(see the counterexample), so the full formula holds only for bot.js. -/
theorem C4_spam_iff :
    (∀ text : Str,
       Bot.isSpamMessage text =
         (Bot.spamKeywords.any (fun k => jsIncludes (jsToUpper text) k) ||
          decide (emojiCount text > 5) || capsClause text)) ∧
    (∀ text : Str,
       Bot.spamKeywords.any (fun k => jsIncludes (jsToUpper text) k) = false →
       capsClause text = false →
       (Bot.isSpamMessage text = true ↔ emojiCount text > 5)) ∧
    (∀ text : Str, 2 * capsCount text = utf16Len text → capsClause text = false) ∧
    Bot.isSpamMessage fiveEmojiText = false ∧
    Bot.isSpamMessage sixEmojiText = true ∧
    Bot.isSpamMessage halfCapsText = false := by
  refine ⟨fun text => rfl, ?_, ?_, by decide, by decide, by decide⟩
  · intro text h1 h2
    simp [Bot.isSpamMessage, h1, h2]
  · intro text h
    simp [capsClause, h]

/-- C4 witness: the boundary equivalence applied at the five-emoji
text, hypotheses discharged by evaluation. -/
theorem C4_witness :
    Bot.spamKeywords.any (fun k => jsIncludes (jsToUpper fiveEmojiText) k) = false ∧
    capsClause fiveEmojiText = false ∧
    (Bot.isSpamMessage fiveEmojiText = true ↔ emojiCount fiveEmojiText > 5) :=
  ⟨by decide, by decide, C4_spam_iff.2.1 fiveEmojiText (by decide) (by decide)⟩

/-- A self entity whose username is `Alice` (capital A) and whose full
name shares nothing with the probe text. -/
def meAlice : Me := { id := str "9", username := some (str "Alice"), firstName := str "Zz" }

/-- C9 counterexample: the username match is case-sensitive, not
case-insensitive as claimed — the text `@alice` does not mention a user
with username `Alice` (and the name branch does not fire either), even
though a case-insensitive comparison would match. -/
theorem C9_counterexample :
    checkMention (str "@alice") meAlice = false ∧
    jsIncludes (jsToLower (str "@alice")) (jsToLower (str "@" ++ str "Alice")) = true ∧
    meAlice.username = some (str "Alice") := by
  decide

/-- C9 (amended): checkMention is true exactly when the text is
non-empty and either contains `@<username>` verbatim (case-SENSITIVE,
when the username is set and non-empty) or its lowercasing contains the
lowercased trimmed full name (that branch is case-insensitive); empty
text never mentions. -/
theorem C9_checkMention_iff :
    ∀ (text : Str) (me : Me),
      checkMention text me = true ↔
        (text ≠ [] ∧
         ((∃ u, me.username = some u ∧ u ≠ [] ∧ jsIncludes text (str "@" ++ u) = true) ∨
          jsIncludes (jsToLower text) (jsToLower (fullName me)) = true)) := by
  intro text me
  by_cases ht : text = []
  · simp [checkMention, ht]
  · cases hu : me.username with
    | none => simp [checkMention, ht, hu]
    | some u => simp [checkMention, ht, hu, and_assoc]

/-- C9 witness: the amended equivalence instantiated at a concrete
mentioning text. -/
theorem C9_witness :
    checkMention (str "hi @Alice") meAlice = true ↔
      (str "hi @Alice" ≠ [] ∧
       ((∃ u, meAlice.username = some u ∧ u ≠ [] ∧
           jsIncludes (str "hi @Alice") (str "@" ++ u) = true) ∨
        jsIncludes (jsToLower (str "hi @Alice")) (jsToLower (fullName meAlice)) = true)) :=
  C9_checkMention_iff (str "hi @Alice") meAlice

/-- The super_strict run configuration. -/
def cfgSuperStrict : Config := { filterMode := "super_strict" }

/-- A 500-participant megagroup. -/
def bigGroup : Entity := { id := str "g1", megagroup := true, participantsCount := some 500 }

/-- Unfolding of MessageFilter.shouldIncludeDialog in super_strict
mode. -/
theorem shouldIncludeDialog_superStrict (cfg : Config) (e : Entity)
    (h : cfg.filterMode = "super_strict") :
    MessageFilter.shouldIncludeDialog cfg e =
      ((ChatUtils.getChatType e).isDM ||
       ((ChatUtils.getChatType e).isGroup && pcTruthy e && decide (pcVal e ≤ 50)), false) := by
  simp only [MessageFilter.shouldIncludeDialog, h]
  rfl

/-- C5 counterexample: the cited bot.js chat-level filter in
super_strict mode does NOT exclude a 500-participant group — it filters
only broadcast channels, so this group (well above the claimed 50 cap)
is included at chat level; group gating happens at message level
instead. -/
theorem C5_counterexample :
    (Bot.shouldFilterChat cfgSuperStrict (str "g1") bigGroup {}).1 = false ∧
    (ChatUtils.getChatType bigGroup).type = "group" ∧
    bigGroup.participantsCount = some 500 := by
  decide

/-- C5 (amended): in super_strict mode, MessageFilter's dialog filter
includes an entity iff its dm flag holds or its group flag holds with a
truthy participant count of at most 50 (so an included group-flagged,
non-dm entity always has a known count between 1 and 50); the bot.js
chat-level filter in the same mode excludes exactly the broadcast
channels, so groups of any size pass its chat level. -/
theorem C5_superStrict_chat_filter :
    (∀ (cfg : Config) (e : Entity), cfg.filterMode = "super_strict" →
       (MessageFilter.shouldIncludeDialog cfg e).1 =
         ((ChatUtils.getChatType e).isDM ||
          ((ChatUtils.getChatType e).isGroup && pcTruthy e && decide (pcVal e ≤ 50)))) ∧
    (∀ (cfg : Config) (e : Entity), cfg.filterMode = "super_strict" →
       (MessageFilter.shouldIncludeDialog cfg e).1 = true →
       (ChatUtils.getChatType e).isDM = true ∨
         ∃ n, e.participantsCount = some n ∧ 0 < n ∧ n ≤ 50) ∧
    (∀ (cfg : Config) (chatId : Str) (chat : Entity) (sender : Sender),
       cfg.filterMode = "super_strict" →
       (Bot.shouldFilterChat cfg chatId chat sender).1 = chat.broadcast) := by
  refine ⟨?_, ?_, ?_⟩
  · intro cfg e h
    rw [shouldIncludeDialog_superStrict cfg e h]
  · intro cfg e h hinc
    rw [shouldIncludeDialog_superStrict cfg e h] at hinc
    simp only [Bool.or_eq_true, Bool.and_eq_true] at hinc
    rcases hinc with h1 | ⟨⟨hg, hp⟩, hle⟩
    · exact Or.inl h1
    · right
      cases hpc : e.participantsCount with
      | none => simp [pcTruthy, hpc] at hp
      | some n =>
        refine ⟨n, rfl, ?_, ?_⟩
        · simp [pcTruthy, hpc] at hp; exact hp
        · simp [pcVal, hpc] at hle; exact hle
  · intro cfg chatId chat sender h
    simp only [Bot.shouldFilterChat, h]
    rfl

/-- C5 witness: the bot.js super_strict chat filter evaluated through
the amended theorem at a broadcast channel. -/
theorem C5_witness :
    cfgSuperStrict.filterMode = "super_strict" ∧
    (Bot.shouldFilterChat cfgSuperStrict (str "c") { broadcast := true } {}).1 =
      ({ broadcast := true : Entity }).broadcast :=
  ⟨rfl, C5_superStrict_chat_filter.2.2 cfgSuperStrict (str "c") { broadcast := true } {} rfl⟩

/-- Allowlist mode with no configured ids. -/
def cfgAllowEmpty : Config := { filterMode := "allowlist" }

/-- Allowlist mode with a single configured id. -/
def cfgAllowOne : Config := { filterMode := "allowlist", allowedChatIds := [str "1"] }

/-- C6: in allowlist mode with an empty configured id set, both
implementations include every chat and emit the misconfiguration
warning; with a non-empty set, a chat is included iff its id is in the
set and no warning is emitted. -/
theorem C6_allowlist :
    (∀ (cfg : Config) (chatId : Str) (chat : Entity) (sender : Sender) (e : Entity),
       cfg.filterMode = "allowlist" → cfg.allowedChatIds = [] →
       Bot.shouldFilterChat cfg chatId chat sender = (false, true) ∧
       MessageFilter.shouldIncludeDialog cfg e = (true, true)) ∧
    (∀ (cfg : Config) (chatId : Str) (chat : Entity) (sender : Sender) (e : Entity),
       cfg.filterMode = "allowlist" → cfg.allowedChatIds ≠ [] →
       ((Bot.shouldFilterChat cfg chatId chat sender).1 = false ↔
          chatId ∈ cfg.allowedChatIds) ∧
       (Bot.shouldFilterChat cfg chatId chat sender).2 = false ∧
       ((MessageFilter.shouldIncludeDialog cfg e).1 = true ↔
          e.id ∈ cfg.allowedChatIds) ∧
       (MessageFilter.shouldIncludeDialog cfg e).2 = false) := by
  constructor
  · intro cfg chatId chat sender e h he
    constructor
    · simp only [Bot.shouldFilterChat, h, he]; rfl
    · simp only [MessageFilter.shouldIncludeDialog, h, he]; rfl
  · intro cfg chatId chat sender e h hne
    have hb : Bot.shouldFilterChat cfg chatId chat sender =
        (!decide (chatId ∈ cfg.allowedChatIds), false) := by
      simp only [Bot.shouldFilterChat, h]
      rw [if_pos trivial, if_neg hne]
    have hm : MessageFilter.shouldIncludeDialog cfg e =
        (decide (e.id ∈ cfg.allowedChatIds), false) := by
      simp only [MessageFilter.shouldIncludeDialog, h]
      rw [if_pos trivial, if_neg hne]
    rw [hb, hm]
    simp

/-- C6 witness: both allowlist branches exercised at concrete
configurations. -/
theorem C6_witness :
    (cfgAllowEmpty.filterMode = "allowlist" ∧ cfgAllowEmpty.allowedChatIds = [] ∧
     Bot.shouldFilterChat cfgAllowEmpty (str "5") {} {} = (false, true)) ∧
    (cfgAllowOne.allowedChatIds ≠ [] ∧
     ((Bot.shouldFilterChat cfgAllowOne (str "1") {} {}).1 = false ↔
        str "1" ∈ cfgAllowOne.allowedChatIds)) :=
  ⟨⟨rfl, rfl, (C6_allowlist.1 cfgAllowEmpty (str "5") {} {} {} rfl rfl).1⟩,
   ⟨by decide, (C6_allowlist.2 cfgAllowOne (str "1") {} {} {} rfl (by decide)).1⟩⟩

/-- The persisted unit: one element of a daily log file's JSON array,
with the fields bot.js builds (the ISO timestamp is embedded as the
wall-clock day on which the handler ran). -/
structure LogEntry where
  timestampDay : Int
  messageId : Nat
  chatId : Str
  chatTitle : Str
  chatType : String
  senderName : Str
  senderId : Str
  text : Str
  date : Nat
  isFromMe : Bool
  isMention : Bool
  filterMode : String
  deriving DecidableEq

/-- An inbound event together with the responses the outside world would
give to the handler's retried lookups during its processing: a `none`
fetch is a lookup whose retries were exhausted; `today` is the
wall-clock calendar date while the event is processed. -/
structure Event where
  text : Str := []
  peerIsChannel : Bool := false
  chatId : Option Str := none
  senderId : Option Str := none
  messageId : Nat := 0
  fwdFrom : Bool := false
  date : Nat := 0
  today : Int := 0
  chatFetch : Option Entity := none
  senderFetch : Option Sender := none
  meFetch : Option Me := none

/-- The mutable state of a TelegramLoggerSystem run: dedup cache (in
insertion order), entity caches, cached self, current log file date, the
log directory, and the three daily counters. -/
structure BotState where
  processedMessages : List Str := []
  chatCache : List (Str × Entity) := []
  senderCache : List (Str × Sender) := []
  me : Option Me := none
  currentLogFile : Int := 0
  files : Int → List LogEntry := fun _ => []
  messageCount : Nat := 0
  filteredCount : Nat := 0
  skippedCount : Nat := 0

/-- Which exit the event handler took. -/
inductive Outcome
  | ignored
  | filtered
  | deduped
  | skipped
  | accepted
  deriving DecidableEq

namespace Bot

/-- JavaScript `Set.prototype.add`: append iff absent, preserving
insertion order. -/
def setAdd (l : List Str) (k : Str) : List Str :=
  if k ∈ l then l else l ++ [k]

/-- The dedup key of bot.js line 502:
`` `${message.chatId || ...}_${message.id}` `` (an absent chat id
stringifies as `undefined`). -/
def keyOf (e : Event) : Str :=
  (e.chatId.getD (str "undefined")) ++ str "_" ++ (toString e.messageId).data

/-- bot.js TelegramLoggerSystem.shouldSkipMessage (329-342): the early
channel filter applied before deduplication. -/
def shouldSkipMessage (cfg : Config) (e : Event) : Bool :=
  e.peerIsChannel &&
    (decide (cfg.filterMode = "super_strict") ||
     decide (cfg.filterMode = "no_channels") ||
     cfg.blockAllChannels)

/-- bot.js TelegramLoggerSystem.getChatInfo (73-97): cached, retried
chat lookup; a failed lookup returns null and caches nothing. -/
def getChatInfo (s : BotState) (e : Event) : Option Entity × BotState :=
  match e.chatId with
  | none => (none, s)
  | some cid =>
    match s.chatCache.lookup cid with
    | some c => (some c, s)
    | none =>
      match e.chatFetch with
      | some c => (some c, { s with chatCache := s.chatCache ++ [(cid, c)] })
      | none => (none, s)

/-- bot.js TelegramLoggerSystem.getSenderInfo (100-165): for channel
posts, a synthetic sender derived from the channel entity (or a
fallback), cached under a channel-scoped key; otherwise a cached,
retried user lookup. -/
def getSenderInfo (s : BotState) (e : Event) : Option Sender × BotState :=
  if e.peerIsChannel then
    let cid := e.chatId.getD (str "undefined")
    let key := str "channel_" ++ cid
    match s.senderCache.lookup key with
    | some snd => (some snd, s)
    | none =>
      match getChatInfo s e with
      | (some chat, s1) =>
        let channelSender : Sender :=
          { id := chat.id,
            firstName := jsOrStr chat.title (str "Channel"),
            lastName := some [],
            username := some (jsOrStr chat.username (str "channel_" ++ cid)),
            bot := false, isChannel := true }
        (some channelSender,
         { s1 with senderCache := s1.senderCache ++ [(key, channelSender)] })
      | (none, s1) =>
        let fallbackSender : Sender :=
          { id := cid, firstName := str "Channel", lastName := some cid,
            username := some (str "channel_" ++ cid),
            bot := false, isChannel := true }
        (some fallbackSender,
         { s1 with senderCache := s1.senderCache ++ [(key, fallbackSender)] })
  else
    match e.senderId with
    | none => (none, s)
    | some sid =>
      match s.senderCache.lookup sid with
      | some snd => (some snd, s)
      | none =>
        match e.senderFetch with
        | some snd => (some snd, { s with senderCache := s.senderCache ++ [(sid, snd)] })
        | none => (none, s)

/-- bot.js TelegramLoggerSystem.getMyInfo (168-180): cached self
lookup. -/
def getMyInfo (s : BotState) (e : Event) : Option Me × BotState :=
  match s.me with
  | some m => (some m, s)
  | none =>
    match e.meFetch with
    | some m => (some m, { s with me := some m })
    | none => (none, s)

/-- JavaScript `chat.participantsCount > 100` (false on undefined). -/
def pcGt100 (c : Entity) : Bool :=
  match c.participantsCount with
  | some n => decide (n > 100)
  | none => false

/-- The LogEntry assembled in the accepted path of the handler
(bot.js 595-613): chat type from the synthetic-channel flag and the
group shape, self detection by sender id, display names via the
JavaScript template-and-trim idiom. -/
def buildEntry (cfg : Config) (e : Event) (chat : Entity) (sender : Sender)
    (me : Me) : LogEntry :=
  let isGroupChat := chat.megagroup || chat.gigagroup || chat.participantsCount.isSome
  let chatType := if sender.isChannel then "channel"
    else if isGroupChat then "group" else "dm"
  let isFromMe := decide (sender.id = me.id)
  let senderDisplay := jsTrim (sender.firstName ++ str " " ++ jsOrStr sender.lastName [])
  { timestampDay := e.today,
    messageId := e.messageId,
    chatId := chat.id,
    chatTitle := jsOrStr chat.title senderDisplay,
    chatType := chatType,
    senderName := if isFromMe then str "ME" else senderDisplay,
    senderId := sender.id,
    text := e.text,
    date := e.date,
    isFromMe := isFromMe,
    isMention := checkMention e.text me,
    filterMode := cfg.filterMode }

/-- The NewMessage handler registered in bot.js startLogging (487-659):
empty-text guard, early channel filter, dedup check, dedup-cache
eviction of the oldest 500 keys past 1000 entries, cached/retried
lookups, chat-level filter, mode-specific group gating, spam and
forwarded-in-group filters, log append (to the currently open file),
counter update, and daily rotation with counter reset.  The second
component records which exit the handler took. -/
def handleEvent (cfg : Config) (s : BotState) (e : Event) : BotState × Outcome :=
  if e.text = [] then (s, Outcome.ignored)
  else if shouldSkipMessage cfg e then
    ({ s with filteredCount := s.filteredCount + 1 }, Outcome.filtered)
  else if keyOf e ∈ s.processedMessages then (s, Outcome.deduped)
  else
    let s0 := if s.processedMessages.length > 1000
      then { s with processedMessages := s.processedMessages.drop 500 }
      else s
    match getChatInfo s0 e with
    | (none, s1) => ({ s1 with skippedCount := s1.skippedCount + 1 }, Outcome.skipped)
    | (some chat, s1) =>
      match getSenderInfo s1 e with
      | (none, s2) => ({ s2 with skippedCount := s2.skippedCount + 1 }, Outcome.skipped)
      | (some sender, s2) =>
        let s3 := { s2 with processedMessages := setAdd s2.processedMessages (keyOf e) }
        match getMyInfo s3 e with
        | (none, s4) => ({ s4 with skippedCount := s4.skippedCount + 1 }, Outcome.skipped)
        | (some me, s4) =>
          if (shouldFilterChat cfg chat.id chat sender).1 then
            ({ s4 with filteredCount := s4.filteredCount + 1 }, Outcome.filtered)
          else
            let isGroupChat := chat.megagroup || chat.gigagroup || chat.participantsCount.isSome
            if decide (cfg.filterMode = "super_strict") && isGroupChat &&
                !checkMention e.text me then
              ({ s4 with filteredCount := s4.filteredCount + 1 }, Outcome.filtered)
            else if (decide (cfg.filterMode = "smart") ||
                  decide (cfg.filterMode = "exclude_keywords")) &&
                isGroupChat && pcGt100 chat && !checkMention e.text me then
              ({ s4 with filteredCount := s4.filteredCount + 1 }, Outcome.filtered)
            else if isSpamMessage e.text then
              ({ s4 with filteredCount := s4.filteredCount + 1 }, Outcome.filtered)
            else if isGroupChat && e.fwdFrom then
              ({ s4 with filteredCount := s4.filteredCount + 1 }, Outcome.filtered)
            else
              let entry := buildEntry cfg e chat sender me
              let s5 := { s4 with
                files := fun d => if d = s4.currentLogFile
                  then s4.files s4.currentLogFile ++ [entry] else s4.files d,
                messageCount := s4.messageCount + 1 }
              if e.today ≠ s5.currentLogFile then
                ({ s5 with
                    currentLogFile := e.today,
                    messageCount := 0, filteredCount := 0, skippedCount := 0 },
                 Outcome.accepted)
              else (s5, Outcome.accepted)

/-- The single-consumer ingestion loop: events processed one at a time
in arrival order. -/
def runHandler (cfg : Config) (s : BotState) (events : List Event) : BotState :=
  events.foldl (fun st ev => (handleEvent cfg st ev).1) s

end Bot

/-- Adding a key to the dedup set makes it a member. -/
theorem mem_setAdd (l : List Str) (k : Str) : k ∈ Bot.setAdd l k := by
  unfold Bot.setAdd
  split
  · assumption
  · exact List.mem_append_right l (List.mem_singleton.mpr rfl)

/-- Adding a key grows the dedup set by at most one. -/
theorem setAdd_length (l : List Str) (k : Str) :
    (Bot.setAdd l k).length ≤ l.length + 1 := by
  unfold Bot.setAdd
  split
  · omega
  · simp

/-- A fresh key stays fresh after dropping the oldest entries. -/
theorem not_mem_drop {a : Str} {l : List Str} (n : Nat) (h : a ∉ l) :
    a ∉ l.drop n :=
  fun hd => h (List.drop_subset n l hd)

/-- A fresh key is appended verbatim by the set add. -/
theorem setAdd_of_not_mem {l : List Str} {k : Str} (h : k ∉ l) :
    Bot.setAdd l k = l ++ [k] := by
  unfold Bot.setAdd
  exact if_neg h

namespace Bot

/-- getChatInfo touches only the chat cache. -/
theorem getChatInfo_frame (s : BotState) (e : Event) :
    (getChatInfo s e).2.processedMessages = s.processedMessages ∧
    (getChatInfo s e).2.senderCache = s.senderCache ∧
    (getChatInfo s e).2.me = s.me ∧
    (getChatInfo s e).2.currentLogFile = s.currentLogFile ∧
    (getChatInfo s e).2.files = s.files ∧
    (getChatInfo s e).2.messageCount = s.messageCount ∧
    (getChatInfo s e).2.filteredCount = s.filteredCount ∧
    (getChatInfo s e).2.skippedCount = s.skippedCount := by
  unfold getChatInfo
  cases e.chatId with
  | none => exact ⟨rfl, rfl, rfl, rfl, rfl, rfl, rfl, rfl⟩
  | some cid =>
    dsimp only
    cases s.chatCache.lookup cid with
    | some c => exact ⟨rfl, rfl, rfl, rfl, rfl, rfl, rfl, rfl⟩
    | none =>
      dsimp only
      cases e.chatFetch with
      | some c => exact ⟨rfl, rfl, rfl, rfl, rfl, rfl, rfl, rfl⟩
      | none => exact ⟨rfl, rfl, rfl, rfl, rfl, rfl, rfl, rfl⟩

/-- getSenderInfo touches only the two entity caches. -/
theorem getSenderInfo_frame (s : BotState) (e : Event) :
    (getSenderInfo s e).2.processedMessages = s.processedMessages ∧
    (getSenderInfo s e).2.me = s.me ∧
    (getSenderInfo s e).2.currentLogFile = s.currentLogFile ∧
    (getSenderInfo s e).2.files = s.files ∧
    (getSenderInfo s e).2.messageCount = s.messageCount ∧
    (getSenderInfo s e).2.filteredCount = s.filteredCount ∧
    (getSenderInfo s e).2.skippedCount = s.skippedCount := by
  unfold getSenderInfo
  split
  · dsimp only
    cases s.senderCache.lookup (str "channel_" ++ e.chatId.getD (str "undefined")) with
    | some snd => exact ⟨rfl, rfl, rfl, rfl, rfl, rfl, rfl⟩
    | none =>
      dsimp only
      rcases hg : getChatInfo s e with ⟨copt, s1⟩
      have hf := getChatInfo_frame s e
      rw [hg] at hf
      obtain ⟨h1, _, h3, h4, h5, h6, h7, h8⟩ := hf
      try dsimp only
      cases copt with
      | some chat => exact ⟨h1, h3, h4, h5, h6, h7, h8⟩
      | none => exact ⟨h1, h3, h4, h5, h6, h7, h8⟩
  · try dsimp only
    cases e.senderId with
    | none => exact ⟨rfl, rfl, rfl, rfl, rfl, rfl, rfl⟩
    | some sid =>
      dsimp only
      cases s.senderCache.lookup sid with
      | some snd => exact ⟨rfl, rfl, rfl, rfl, rfl, rfl, rfl⟩
      | none =>
        dsimp only
        cases e.senderFetch with
        | some snd => exact ⟨rfl, rfl, rfl, rfl, rfl, rfl, rfl⟩
        | none => exact ⟨rfl, rfl, rfl, rfl, rfl, rfl, rfl⟩

/-- getMyInfo touches only the cached self. -/
theorem getMyInfo_frame (s : BotState) (e : Event) :
    (getMyInfo s e).2.processedMessages = s.processedMessages ∧
    (getMyInfo s e).2.chatCache = s.chatCache ∧
    (getMyInfo s e).2.senderCache = s.senderCache ∧
    (getMyInfo s e).2.currentLogFile = s.currentLogFile ∧
    (getMyInfo s e).2.files = s.files ∧
    (getMyInfo s e).2.messageCount = s.messageCount ∧
    (getMyInfo s e).2.filteredCount = s.filteredCount ∧
    (getMyInfo s e).2.skippedCount = s.skippedCount := by
  unfold getMyInfo
  cases s.me with
  | some m => exact ⟨rfl, rfl, rfl, rfl, rfl, rfl, rfl, rfl⟩
  | none =>
    dsimp only
    cases e.meFetch with
    | some m => exact ⟨rfl, rfl, rfl, rfl, rfl, rfl, rfl, rfl⟩
    | none => exact ⟨rfl, rfl, rfl, rfl, rfl, rfl, rfl, rfl⟩

/-- When the self entity is already cached, getMyInfo returns it and
changes nothing. -/
theorem getMyInfo_of_some {s : BotState} (e : Event) {m0 : Me}
    (h : s.me = some m0) : getMyInfo s e = (some m0, s) := by
  unfold getMyInfo
  rw [h]

/-- A duplicate that passes the guards in front of the dedup check is
dropped with no state change at all. -/
theorem handleEvent_deduped (cfg : Config) (s : BotState) (e : Event)
    (ht : e.text ≠ []) (hsk : shouldSkipMessage cfg e = false)
    (hmem : keyOf e ∈ s.processedMessages) :
    handleEvent cfg s e = (s, Outcome.deduped) := by
  unfold handleEvent
  rw [if_neg ht, if_neg (by simp [hsk]), if_pos hmem]

end Bot

namespace Bot

/-- Complete case analysis of one handler step: either the event is not
accepted and the log directory is untouched, or it is accepted, it
passed the guards in front of the dedup check, its key is in the dedup
cache afterwards, exactly one entry — built against the cached self —
was appended to the file that was current when the event arrived, and
(when the wall-clock date moved on) the current file switched to the new
date with all three daily counters reset. -/
theorem handleEvent_main (cfg : Config) (s : BotState) (e : Event) :
    ((handleEvent cfg s e).2 ≠ Outcome.accepted ∧
     (handleEvent cfg s e).1.files = s.files) ∨
    (∃ entry me',
       (handleEvent cfg s e).2 = Outcome.accepted ∧
       e.text ≠ [] ∧
       shouldSkipMessage cfg e = false ∧
       keyOf e ∈ (handleEvent cfg s e).1.processedMessages ∧
       (∀ m0, s.me = some m0 → me' = m0) ∧
       entry.isMention = checkMention e.text me' ∧
       entry.text = e.text ∧
       ((handleEvent cfg s e).1.files = fun d =>
          if d = s.currentLogFile then s.files s.currentLogFile ++ [entry]
          else s.files d) ∧
       (e.today ≠ s.currentLogFile →
          (handleEvent cfg s e).1.currentLogFile = e.today ∧
          (handleEvent cfg s e).1.messageCount = 0 ∧
          (handleEvent cfg s e).1.filteredCount = 0 ∧
          (handleEvent cfg s e).1.skippedCount = 0)) := by
  by_cases ht : e.text = []
  · have hh : handleEvent cfg s e = (s, Outcome.ignored) := by
      unfold handleEvent; rw [if_pos ht]
    rw [hh]
    exact Or.inl ⟨fun hc => Outcome.noConfusion hc, rfl⟩
  · by_cases hsk : shouldSkipMessage cfg e = true
    · have hh : handleEvent cfg s e =
          ({ s with filteredCount := s.filteredCount + 1 }, Outcome.filtered) := by
        unfold handleEvent; rw [if_neg ht, if_pos hsk]
      rw [hh]
      exact Or.inl ⟨fun hc => Outcome.noConfusion hc, rfl⟩
    · have hskf : shouldSkipMessage cfg e = false := by
        cases hx : shouldSkipMessage cfg e
        · rfl
        · exact absurd hx hsk
      by_cases hmem : keyOf e ∈ s.processedMessages
      · rw [handleEvent_deduped cfg s e ht hskf hmem]
        exact Or.inl ⟨fun hc => Outcome.noConfusion hc, rfl⟩
      · unfold handleEvent
        rw [if_neg ht, if_neg hsk, if_neg hmem]
        dsimp only
        generalize hs0 : (if s.processedMessages.length > 1000
            then { s with processedMessages := s.processedMessages.drop 500 }
            else s) = s0
        have hs0frame : s0.files = s.files ∧ s0.currentLogFile = s.currentLogFile ∧
            s0.me = s.me := by
          rw [← hs0]; split <;> exact ⟨rfl, rfl, rfl⟩
        obtain ⟨hf0, hc0, hm0⟩ := hs0frame
        rcases hg : getChatInfo s0 e with ⟨copt, s1⟩
        have hf1 := getChatInfo_frame s0 e
        rw [hg] at hf1
        obtain ⟨h1p, h1sc, h1me, h1cur, h1files, _, _, _⟩ := hf1
        cases copt with
        | none =>
          exact Or.inl ⟨fun hc => Outcome.noConfusion hc,
            by show s1.files = s.files; rw [h1files, hf0]⟩
        | some chat =>
          dsimp only
          rcases hs2 : getSenderInfo s1 e with ⟨sopt, s2⟩
          have hf2 := getSenderInfo_frame s1 e
          rw [hs2] at hf2
          obtain ⟨h2p, h2me, h2cur, h2files, _, _, _⟩ := hf2
          cases sopt with
          | none =>
            exact Or.inl ⟨fun hc => Outcome.noConfusion hc,
              by show s2.files = s.files; rw [h2files, h1files, hf0]⟩
          | some sender =>
            dsimp only
            rcases hm : getMyInfo
                { s2 with processedMessages := setAdd s2.processedMessages (keyOf e) } e
              with ⟨mopt, s4⟩
            have hf3 := getMyInfo_frame
                { s2 with processedMessages := setAdd s2.processedMessages (keyOf e) } e
            rw [hm] at hf3
            obtain ⟨h3p, _, _, h3cur, h3files, _, _, _⟩ := hf3
            dsimp only at h3p h3cur h3files
            have hfiles4 : s4.files = s.files := by
              rw [h3files, h2files, h1files, hf0]
            have hcur4 : s4.currentLogFile = s.currentLogFile := by
              rw [h3cur, h2cur, h1cur, hc0]
            cases mopt with
            | none =>
              exact Or.inl ⟨fun hc => Outcome.noConfusion hc,
                by show s4.files = s.files; exact hfiles4⟩
            | some me =>
              dsimp only
              have hmeEq : ∀ m0, s.me = some m0 → me = m0 := by
                intro m0 hsme
                have hsme3 : ({ s2 with
                    processedMessages := setAdd s2.processedMessages (keyOf e) } :
                      BotState).me = some m0 := by
                  show s2.me = some m0
                  rw [h2me, h1me, hm0, hsme]
                have h2 := getMyInfo_of_some
                  (s := { s2 with
                    processedMessages := setAdd s2.processedMessages (keyOf e) }) e hsme3
                rw [hm] at h2
                exact Option.some.inj (congrArg Prod.fst h2)
              by_cases hfc : (shouldFilterChat cfg chat.id chat sender).1 = true
              · rw [if_pos hfc]
                exact Or.inl ⟨fun hc => Outcome.noConfusion hc,
                  by show s4.files = s.files; exact hfiles4⟩
              · rw [if_neg hfc]
                by_cases hg1 : (decide (cfg.filterMode = "super_strict") &&
                    (chat.megagroup || chat.gigagroup || chat.participantsCount.isSome) &&
                    !checkMention e.text me) = true
                · rw [if_pos hg1]
                  exact Or.inl ⟨fun hc => Outcome.noConfusion hc,
                    by show s4.files = s.files; exact hfiles4⟩
                · rw [if_neg hg1]
                  by_cases hg2 : ((decide (cfg.filterMode = "smart") ||
                        decide (cfg.filterMode = "exclude_keywords")) &&
                      (chat.megagroup || chat.gigagroup || chat.participantsCount.isSome) &&
                      pcGt100 chat && !checkMention e.text me) = true
                  · rw [if_pos hg2]
                    exact Or.inl ⟨fun hc => Outcome.noConfusion hc,
                      by show s4.files = s.files; exact hfiles4⟩
                  · rw [if_neg hg2]
                    by_cases hsp : isSpamMessage e.text = true
                    · rw [if_pos hsp]
                      exact Or.inl ⟨fun hc => Outcome.noConfusion hc,
                        by show s4.files = s.files; exact hfiles4⟩
                    · rw [if_neg hsp]
                      by_cases hfw : ((chat.megagroup || chat.gigagroup ||
                          chat.participantsCount.isSome) && e.fwdFrom) = true
                      · rw [if_pos hfw]
                        exact Or.inl ⟨fun hc => Outcome.noConfusion hc,
                          by show s4.files = s.files; exact hfiles4⟩
                      · rw [if_neg hfw]
                        right
                        by_cases hrot : e.today = s.currentLogFile
                        · have hnrot : ¬(e.today ≠ s4.currentLogFile) := by
                            rw [hcur4]
                            exact fun hcontra => hcontra hrot
                          rw [if_neg hnrot]
                          refine ⟨buildEntry cfg e chat sender me, me, rfl, ht, hskf,
                            ?_, hmeEq, rfl, rfl, ?_, ?_⟩
                          · show keyOf e ∈ s4.processedMessages
                            rw [h3p]
                            exact mem_setAdd s2.processedMessages (keyOf e)
                          · show (fun d => if d = s4.currentLogFile
                                then s4.files s4.currentLogFile ++
                                  [buildEntry cfg e chat sender me]
                                else s4.files d) = _
                            funext d
                            rw [hcur4, hfiles4]
                          · intro hcontra
                            exact absurd hrot hcontra
                        · have hyrot : e.today ≠ s4.currentLogFile := by
                            rw [hcur4]
                            exact hrot
                          rw [if_pos hyrot]
                          refine ⟨buildEntry cfg e chat sender me, me, rfl, ht, hskf,
                            ?_, hmeEq, rfl, rfl, ?_, ?_⟩
                          · show keyOf e ∈ s4.processedMessages
                            rw [h3p]
                            exact mem_setAdd s2.processedMessages (keyOf e)
                          · show (fun d => if d = s4.currentLogFile
                                then s4.files s4.currentLogFile ++
                                  [buildEntry cfg e chat sender me]
                                else s4.files d) = _
                            funext d
                            rw [hcur4, hfiles4]
                          · intro _
                            exact ⟨rfl, rfl, rfl, rfl⟩

end Bot

/-- The super_strict configuration sends channel posts through the early
filter, which runs before the dedup check. -/
def dupChannelEvent : Event :=
  { text := str "hi", peerIsChannel := true, chatId := some (str "7"), messageId := 1 }

/-- C1 counterexample: two events with the same (chatId, messageId) key
— the same channel post delivered twice under super_strict — are both
dropped by the early channel filter, which runs BEFORE the dedup check,
and each submission increments the filtered counter; the duplicate
submission is therefore not a no-op on the counters as claimed (no
LogEntry is appended, but filteredCount ends at 2, not 1). -/
theorem C1_counterexample :
    (Bot.handleEvent cfgSuperStrict
        (Bot.handleEvent cfgSuperStrict {} dupChannelEvent).1
        dupChannelEvent).1.filteredCount = 2 ∧
    (Bot.handleEvent cfgSuperStrict {} dupChannelEvent).1.filteredCount = 1 ∧
    (Bot.handleEvent cfgSuperStrict
        (Bot.handleEvent cfgSuperStrict {} dupChannelEvent).1
        dupChannelEvent).2 = Outcome.filtered := by
  decide

/-- C1 (amended): an event whose key is already in the DedupCache and
which passes the guards in front of the dedup check (non-empty text, not
dropped by the early channel filter) is a strict no-op: no log entry, no
counter change, no state change at all; consequently submitting the same
event twice in direct succession appends at most one LogEntry — either
the second run is a literal no-op, or the first run appended nothing.
Duplicates caught by the early channel filter still increment the
filtered counter (see the counterexample). -/
theorem C1_dedup_noop :
    (∀ (cfg : Config) (s : BotState) (e : Event),
       e.text ≠ [] → Bot.shouldSkipMessage cfg e = false →
       Bot.keyOf e ∈ s.processedMessages →
       Bot.handleEvent cfg s e = (s, Outcome.deduped)) ∧
    (∀ (cfg : Config) (s : BotState) (e : Event),
       (Bot.handleEvent cfg (Bot.handleEvent cfg s e).1 e).1 =
         (Bot.handleEvent cfg s e).1 ∨
       (Bot.handleEvent cfg s e).1.files = s.files) := by
  constructor
  · exact Bot.handleEvent_deduped
  · intro cfg s e
    rcases Bot.handleEvent_main cfg s e with ⟨_, hfiles⟩ |
      ⟨entry, me', _, ht, hskf, hmem, _⟩
    · exact Or.inr hfiles
    · left
      rw [Bot.handleEvent_deduped cfg (Bot.handleEvent cfg s e).1 e ht hskf hmem]

/-- A state that has already processed the key of `dedupEvent`. -/
def dedupEvent : Event := { text := str "hey", chatId := some (str "c9"), messageId := 5 }

def dedupState : BotState := { processedMessages := [Bot.keyOf dedupEvent] }

/-- C1 witness: the no-op part of the amended theorem applied at a
concrete cached key, hypotheses discharged by evaluation. -/
theorem C1_witness :
    dedupEvent.text ≠ [] ∧ Bot.shouldSkipMessage {} dedupEvent = false ∧
    Bot.keyOf dedupEvent ∈ dedupState.processedMessages ∧
    Bot.handleEvent {} dedupState dedupEvent = (dedupState, Outcome.deduped) :=
  ⟨by decide, by decide, by decide,
   C1_dedup_noop.1 {} dedupState dedupEvent (by decide) (by decide) (by decide)⟩

/-- The cached self for the rotation scenario. -/
def meBob : Me := { id := str "me", firstName := str "Bob" }

def homeChat : Entity := { id := str "c1", title := some (str "Home") }

def annSender : Sender := { id := str "u1", firstName := str "Ann" }

/-- An accepted direct message arriving on calendar day 1. -/
def day1Event : Event :=
  { text := str "hello", chatId := some (str "c1"), senderId := some (str "u1"),
    messageId := 2, date := 100, today := 1,
    chatFetch := some homeChat, senderFetch := some annSender }

/-- A state whose open log file is still day 0's. -/
def day0State : BotState := { me := some meBob }

/-- C3 counterexample: the first accepted event of the new day IS
written to the previous day's file — the rotation check runs only after
logMessage, so day 0's file gains the entry, day 1's file stays empty,
and only then does the current file switch to day 1 (also zeroing the
counter that had just counted this message). -/
theorem C3_counterexample :
    (Bot.handleEvent {} day0State day1Event).2 = Outcome.accepted ∧
    day1Event.today = 1 ∧ day0State.currentLogFile = 0 ∧
    ((Bot.handleEvent {} day0State day1Event).1.files 0).length = 1 ∧
    (Bot.handleEvent {} day0State day1Event).1.files 1 = [] ∧
    (Bot.handleEvent {} day0State day1Event).1.currentLogFile = 1 ∧
    (Bot.handleEvent {} day0State day1Event).1.messageCount = 0 := by
  decide

/-- C3 (amended): at the first ACCEPTED event whose wall-clock date
differs from the currently open file's date, the handler appends that
event's LogEntry to the PREVIOUS day's file (the previous file is
reopened and grows by exactly one entry; no other file changes), and
only then switches the current log file to the new date and resets the
three in-memory daily counters (accepted, filtered, skipped) to zero.
Filtered or skipped events never trigger rotation. -/
theorem C3_rotation :
    ∀ (cfg : Config) (s : BotState) (e : Event),
      (Bot.handleEvent cfg s e).2 = Outcome.accepted →
      e.today ≠ s.currentLogFile →
      (Bot.handleEvent cfg s e).1.currentLogFile = e.today ∧
      (Bot.handleEvent cfg s e).1.messageCount = 0 ∧
      (Bot.handleEvent cfg s e).1.filteredCount = 0 ∧
      (Bot.handleEvent cfg s e).1.skippedCount = 0 ∧
      ((Bot.handleEvent cfg s e).1.files s.currentLogFile).length =
        (s.files s.currentLogFile).length + 1 ∧
      (∀ d, d ≠ s.currentLogFile → (Bot.handleEvent cfg s e).1.files d = s.files d) := by
  intro cfg s e hacc hd
  rcases Bot.handleEvent_main cfg s e with ⟨hne, _⟩ |
    ⟨entry, me', _, _, _, _, _, _, _, hfiles, hrot⟩
  · exact absurd hacc hne
  · obtain ⟨hcur, hmc, hfc, hsc⟩ := hrot hd
    refine ⟨hcur, hmc, hfc, hsc, ?_, ?_⟩
    · simp only [hfiles, if_pos rfl]
      simp
    · intro d hdne
      simp only [hfiles]
      rw [if_neg hdne]

/-- C3 witness: the amended rotation theorem applied at the concrete
day-boundary scenario. -/
theorem C3_witness :
    (Bot.handleEvent {} day0State day1Event).2 = Outcome.accepted ∧
    day1Event.today ≠ day0State.currentLogFile ∧
    (Bot.handleEvent {} day0State day1Event).1.currentLogFile = day1Event.today ∧
    ((Bot.handleEvent {} day0State day1Event).1.files day0State.currentLogFile).length =
      (day0State.files day0State.currentLogFile).length + 1 :=
  ⟨by decide, by decide,
   (C3_rotation {} day0State day1Event (by decide) (by decide)).1,
   (C3_rotation {} day0State day1Event (by decide) (by decide)).2.2.2.2.1⟩

/-- C10: a self entity whose first and last name concatenate and trim to
the empty string makes checkMention return true on every non-empty text
(the empty lowercased name is a substring of every string), and hence
every LogEntry the pipeline appends while that self is cached carries
isMention = true. -/
theorem C10_empty_name_mentions :
    (∀ (text : Str) (me : Me), text ≠ [] → fullName me = [] →
       checkMention text me = true) ∧
    (∀ (cfg : Config) (s : BotState) (e : Event) (m : Me),
       s.me = some m → fullName m = [] →
       ∀ d en, en ∈ (Bot.handleEvent cfg s e).1.files d →
         en ∈ s.files d ∨ en.isMention = true) := by
  have hbase : ∀ (text : Str) (me : Me), text ≠ [] → fullName me = [] →
      checkMention text me = true := by
    intro text me ht hname
    unfold checkMention
    rw [if_neg ht, hname]
    simp [jsToLower, jsIncludes_empty]
  constructor
  · exact hbase
  · intro cfg s e m hsme hname d en hen
    rcases Bot.handleEvent_main cfg s e with ⟨_, hfiles⟩ |
      ⟨entry, me', _, ht, _, _, hmeEq, hment, _, hfiles, _⟩
    · rw [hfiles] at hen; exact Or.inl hen
    · simp only [hfiles] at hen
      by_cases hdc : d = s.currentLogFile
      · subst hdc
        rw [if_pos rfl] at hen
        rcases List.mem_append.mp hen with h | h
        · exact Or.inl h
        · right
          have heq : en = entry := List.mem_singleton.mp h
          rw [heq, hment, hmeEq m hsme]
          exact hbase e.text m ht hname
      · rw [if_neg hdc] at hen
        exact Or.inl hen

/-- A self whose names trim to the empty string. -/
def meNoName : Me := { id := str "x", firstName := str "" }

/-- C10 witness: the mention theorem applied at a concrete empty-name
self and non-empty text. -/
theorem C10_witness :
    str "hola" ≠ [] ∧ fullName meNoName = [] ∧
    checkMention (str "hola") meNoName = true :=
  ⟨by decide, by decide,
   C10_empty_name_mentions.1 (str "hola") meNoName (by decide) (by decide)⟩

namespace Bot

/-- How one handler step changes the dedup cache: either the event never
reaches the cache-handling code (empty text, early channel filter, or an
already-seen key) and the cache is untouched, or the cache is first
evicted down to its newest entries when it exceeds 1000 keys (dropping
the oldest 500 in insertion order) and then at most the event's own key
is appended. -/
theorem handleEvent_processed (cfg : Config) (s : BotState) (e : Event) :
    ((e.text = [] ∨ shouldSkipMessage cfg e = true ∨
        keyOf e ∈ s.processedMessages) ∧
     (handleEvent cfg s e).1.processedMessages = s.processedMessages) ∨
    (∃ base,
       ((base = s.processedMessages ∧ s.processedMessages.length ≤ 1000) ∨
        (base = s.processedMessages.drop 500 ∧ s.processedMessages.length > 1000)) ∧
       ((handleEvent cfg s e).1.processedMessages = base ∨
        (handleEvent cfg s e).1.processedMessages = setAdd base (keyOf e))) := by
  by_cases ht : e.text = []
  · have hh : handleEvent cfg s e = (s, Outcome.ignored) := by
      unfold handleEvent; rw [if_pos ht]
    rw [hh]
    exact Or.inl ⟨Or.inl ht, rfl⟩
  · by_cases hsk : shouldSkipMessage cfg e = true
    · have hh : handleEvent cfg s e =
          ({ s with filteredCount := s.filteredCount + 1 }, Outcome.filtered) := by
        unfold handleEvent; rw [if_neg ht, if_pos hsk]
      rw [hh]
      exact Or.inl ⟨Or.inr (Or.inl hsk), rfl⟩
    · have hskf : shouldSkipMessage cfg e = false := by
        cases hx : shouldSkipMessage cfg e
        · rfl
        · exact absurd hx hsk
      by_cases hmem : keyOf e ∈ s.processedMessages
      · rw [handleEvent_deduped cfg s e ht hskf hmem]
        exact Or.inl ⟨Or.inr (Or.inr hmem), rfl⟩
      · unfold handleEvent
        rw [if_neg ht, if_neg hsk, if_neg hmem]
        dsimp only
        generalize hs0 : (if s.processedMessages.length > 1000
            then { s with processedMessages := s.processedMessages.drop 500 }
            else s) = s0
        have hbase : (s0.processedMessages = s.processedMessages ∧
              s.processedMessages.length ≤ 1000) ∨
            (s0.processedMessages = s.processedMessages.drop 500 ∧
              s.processedMessages.length > 1000) := by
          rw [← hs0]
          split
          · next hgt => exact Or.inr ⟨rfl, hgt⟩
          · next hle => exact Or.inl ⟨rfl, Nat.le_of_not_lt hle⟩
        right
        refine ⟨s0.processedMessages, hbase, ?_⟩
        rcases hg : getChatInfo s0 e with ⟨copt, s1⟩
        have hf1 := getChatInfo_frame s0 e
        rw [hg] at hf1
        obtain ⟨h1p, _, _, _, _, _, _, _⟩ := hf1
        cases copt with
        | none =>
          left
          show s1.processedMessages = s0.processedMessages
          exact h1p
        | some chat =>
          dsimp only
          rcases hs2 : getSenderInfo s1 e with ⟨sopt, s2⟩
          have hf2 := getSenderInfo_frame s1 e
          rw [hs2] at hf2
          obtain ⟨h2p, _, _, _, _, _, _⟩ := hf2
          cases sopt with
          | none =>
            left
            show s2.processedMessages = s0.processedMessages
            rw [h2p, h1p]
          | some sender =>
            dsimp only
            rcases hm : getMyInfo
                { s2 with processedMessages := setAdd s2.processedMessages (keyOf e) } e
              with ⟨mopt, s4⟩
            have hf3 := getMyInfo_frame
                { s2 with processedMessages := setAdd s2.processedMessages (keyOf e) } e
            rw [hm] at hf3
            obtain ⟨h3p, _, _, _, _, _, _, _⟩ := hf3
            dsimp only at h3p
            have hp4 : s4.processedMessages = setAdd s0.processedMessages (keyOf e) := by
              rw [h3p, h2p, h1p]
            cases mopt with
            | none =>
              right
              show s4.processedMessages = _
              exact hp4
            | some me =>
              dsimp only
              right
              split
              · exact hp4
              · split
                · exact hp4
                · split
                  · exact hp4
                  · split
                    · exact hp4
                    · split
                      · exact hp4
                      · split
                        · exact hp4
                        · exact hp4

end Bot

/-- C8: the DedupCache size invariant holds across every event sequence
of a run — starting at or below 1000 + 1 keys (in particular from the
empty cache), the cache never exceeds the 1000-key high-water mark plus
the one key a single insertion can add; and whenever the cache exceeds
the high-water mark when an event reaches the eviction check, the oldest
500 entries — the oldest half of its 1001 keys, in insertion order — are
evicted before at most the new key is inserted. -/
theorem C8_cache_bound :
    (∀ (cfg : Config) (s : BotState) (events : List Event),
       s.processedMessages.length ≤ 1000 + 1 →
       (Bot.runHandler cfg s events).processedMessages.length ≤ 1000 + 1) ∧
    (∀ (cfg : Config) (s : BotState) (e : Event),
       s.processedMessages.length > 1000 →
       e.text ≠ [] → Bot.shouldSkipMessage cfg e = false →
       Bot.keyOf e ∉ s.processedMessages →
       ((Bot.handleEvent cfg s e).1.processedMessages =
          s.processedMessages.drop 500 ∨
        (Bot.handleEvent cfg s e).1.processedMessages =
          Bot.setAdd (s.processedMessages.drop 500) (Bot.keyOf e))) := by
  have hstep : ∀ (cfg : Config) (s : BotState) (e : Event),
      s.processedMessages.length ≤ 1000 + 1 →
      (Bot.handleEvent cfg s e).1.processedMessages.length ≤ 1000 + 1 := by
    intro cfg s e h
    rcases Bot.handleEvent_processed cfg s e with ⟨_, heq⟩ | ⟨base, hb, hres⟩
    · rw [heq]; exact h
    · have hblen : base.length ≤ 1000 := by
        rcases hb with ⟨hbeq, hle⟩ | ⟨hbeq, hgt⟩
        · rw [hbeq]; exact hle
        · rw [hbeq, List.length_drop]; omega
      rcases hres with h1 | h1 <;> rw [h1]
      · omega
      · have := setAdd_length base (Bot.keyOf e)
        omega
  constructor
  · intro cfg s events
    induction events generalizing s with
    | nil => exact fun h => h
    | cons ev evs ih =>
      intro h
      exact ih _ (hstep cfg s ev h)
  · intro cfg s e hgt ht hskf hmem
    rcases Bot.handleEvent_processed cfg s e with ⟨hwhy, _⟩ | ⟨base, hb, hres⟩
    · rcases hwhy with h | h | h
      · exact absurd h ht
      · rw [hskf] at h; exact absurd h (by simp)
      · exact absurd h hmem
    · rcases hb with ⟨_, hle⟩ | ⟨hbeq, _⟩
      · omega
      · rw [hbeq] at hres
        exact hres

/-- A dedup cache holding 1001 keys, one over the high-water mark. -/
def bigCacheState : BotState := { processedMessages := List.replicate 1001 (str "k") }

/-- A fresh event reaching the eviction check of the big cache. -/
def evictEvent : Event := { text := str "m", chatId := some (str "9"), messageId := 3 }

set_option maxRecDepth 100000 in
/-- C8 witness: both parts of the invariant applied at concrete inputs —
the trace bound from the empty state, and the eviction shape at a
1001-key cache. -/
theorem C8_witness :
    (({} : BotState).processedMessages.length ≤ 1000 + 1 ∧
     (Bot.runHandler {} {} []).processedMessages.length ≤ 1000 + 1) ∧
    (bigCacheState.processedMessages.length > 1000 ∧
     ((Bot.handleEvent {} bigCacheState evictEvent).1.processedMessages =
        bigCacheState.processedMessages.drop 500 ∨
      (Bot.handleEvent {} bigCacheState evictEvent).1.processedMessages =
        Bot.setAdd (bigCacheState.processedMessages.drop 500) (Bot.keyOf evictEvent))) :=
  ⟨⟨by decide, C8_cache_bound.1 {} {} [] (by decide)⟩,
   ⟨by decide,
    C8_cache_bound.2 {} bigCacheState evictEvent (by decide) (by decide)
      (by decide) (by decide)⟩⟩

/-- The read-and-parse result of one daily log file: absent on disk,
present but not valid JSON, or parsed to its array of entries. -/
inductive FileState
  | missing
  | malformed
  | parsed (entries : List LogEntry)

namespace Bot

/-- bot.js TelegramLoggerSystem.collectWeeklyLogs (792-817): for
i = 0..6, read and parse the log file of date (today - i), spreading its
entries onto the accumulator; a missing or malformed file throws inside
the per-file try and contributes nothing. -/
def collectWeeklyLogs (readFile : Int → FileState) (today : Int) : List LogEntry :=
  (List.range 7).foldl
    (fun allMessages i =>
      match readFile (today - Int.ofNat i) with
      | FileState.parsed msgs => allMessages ++ msgs
      | _ => allMessages) []

end Bot

/-- Restatement of the spec's collectWindow contract: the concatenated
union of the daily files that exist and parse, over the trailing seven
calendar dates including the current day, in descending-recency file
order; missing or malformed files contribute no entries. -/
def collectWindow_spec (readFile : Int → FileState) (today : Int) : List LogEntry :=
  ((List.range 7).map (fun i => today - Int.ofNat i)).flatMap
    (fun d =>
      match readFile d with
      | FileState.parsed msgs => msgs
      | _ => [])

/-- First demo entry, living in the current day's file. -/
def demoEntryA : LogEntry :=
  { timestampDay := 10, messageId := 1, chatId := str "a", chatTitle := str "A",
    chatType := "dm", senderName := str "N", senderId := str "a",
    text := str "x", date := 5, isFromMe := false, isMention := false,
    filterMode := "smart" }

/-- Second demo entry, living three days back. -/
def demoEntryB : LogEntry :=
  { timestampDay := 7, messageId := 2, chatId := str "b", chatTitle := str "B",
    chatType := "group", senderName := str "M", senderId := str "b",
    text := str "y", date := 6, isFromMe := false, isMention := true,
    filterMode := "smart" }

/-- A log directory with only two of the seven window files present and
parseable (plus one malformed file inside the window). -/
def twoOfSevenFiles : Int → FileState := fun d =>
  if d = 10 then FileState.parsed [demoEntryA]
  else if d = 7 then FileState.parsed [demoEntryB]
  else if d = 5 then FileState.malformed
  else FileState.missing

/-- One step of the collect loop, pulled out of the accumulator: the
spread-push of a parsed file equals appending that file's entries. -/
theorem collectStep_eq (acc : List LogEntry) (x : FileState) :
    (match x with
     | FileState.parsed msgs => acc ++ msgs
     | _ => acc) =
    acc ++ (match x with
            | FileState.parsed msgs => msgs
            | _ => []) := by
  cases x <;> simp

/-- C7: for every log directory and current day, collectWeeklyLogs
returns exactly the union of the entries of the files that exist and
parse over the trailing seven dates (including the current day) in
descending-recency file order, a missing or malformed file contributing
nothing and raising nothing; in particular with only 2 of 7 daily files
present the result is exactly the union of those 2 files' entries. -/
theorem C7_collect_window :
    (∀ (readFile : Int → FileState) (today : Int),
       Bot.collectWeeklyLogs readFile today = collectWindow_spec readFile today) ∧
    Bot.collectWeeklyLogs twoOfSevenFiles 10 = [demoEntryA] ++ [demoEntryB] := by
  constructor
  · intro readFile today
    unfold Bot.collectWeeklyLogs collectWindow_spec
    rw [show List.range 7 = [0, 1, 2, 3, 4, 5, 6] from rfl]
    simp only [List.foldl_cons, List.foldl_nil, List.map_cons, List.map_nil,
      List.flatMap_cons, List.flatMap_nil, collectStep_eq,
      List.nil_append, List.append_nil, List.append_assoc]
  · decide

